import Mathlib

/-!
Verification development for the private-gpt RAG backend.

The Python source is shallowly embedded: handlers become total Lean
functions over explicit state, exceptions become `Except HTTPError`,
generators become lists, and third-party library calls (jose JWT,
pydantic validation, llama-index ingestion and LLM streaming) become
function parameters or abstract inputs, since those libraries are out
of scope per the specification.
-/

namespace PrivateGpt

/-- An HTTP exception as raised by `fastapi.HTTPException`: a status
code together with a detail message (headers are not modelled). -/
structure HTTPError where
  status_code : Nat
  detail : String
  deriving Repr, DecidableEq

/-! ## Completions streaming (src/private_gpt/completions/routes.py and
src/src/api/main.py) -/

/-- One element of the llama-index completion stream; only the `delta`
field is read by the routes (`response.delta`, an optional string). -/
structure CompletionResponse where
  delta : Option String
  deriving Repr, DecidableEq, Inhabited

/-- Embeds `_to_openai_sse_stream` of
src/private_gpt/completions/routes.py: one
`data: <json delta>\n\n` event per generator element, then a final
`data: [DONE]\n\n` event.  `simple_json_delta` (defined in
`private_gpt.open_ai.openai_models`, not under src/) is a parameter. -/
def to_openai_sse_stream (simple_json_delta : Option String → String)
    (response_generator : List CompletionResponse) : List String :=
  response_generator.map
    (fun response => "data: " ++ simple_json_delta response.delta ++ "\n\n")
  ++ ["data: [DONE]\n\n"]

/-- Embeds `_run_llm` of src/private_gpt/completions/routes.py, the body
behind both `POST /completions` and `GET /completions`: the service
stream for the prompt, wrapped by `to_openai_sse_stream`.  The
completions service `stream_complete` (not under src/) is a parameter. -/
def run_llm (simple_json_delta : Option String → String)
    (stream_complete : String → List CompletionResponse)
    (prompt : String) : List String :=
  to_openai_sse_stream simple_json_delta (stream_complete prompt)

/-- Embeds `_run_llm` of src/src/api/main.py, the body behind `POST /`:
the prompt is truncated to the context window
(`prompt[:llm.context_window]`), streamed through the LLM, and each
delta is wrapped exactly as in the completions route. -/
def main_run_llm (simple_json_delta : Option String → String)
    (llm_stream_complete : String → List CompletionResponse)
    (context_window : Nat) (prompt : String) : List String :=
  let truncated_prompt := prompt.take context_window
  (llm_stream_complete truncated_prompt).map
    (fun response => "data: " ++ simple_json_delta response.delta ++ "\n\n")
  ++ ["data: [DONE]\n\n"]

end PrivateGpt

namespace PrivateGpt

theorem to_openai_sse_stream_length (j : Option String → String)
    (rs : List CompletionResponse) :
    (to_openai_sse_stream j rs).length = rs.length + 1 := by
  simp [to_openai_sse_stream]

theorem to_openai_sse_stream_getElem (j : Option String → String)
    (rs : List CompletionResponse) (i : Nat) (hi : i < rs.length) :
    (to_openai_sse_stream j rs).get
        ⟨i, by simp [to_openai_sse_stream]; omega⟩ =
      "data: " ++ j rs[i].delta ++ "\n\n" := by
  simp [to_openai_sse_stream]
  rw [List.getElem_append_left (by simpa using hi)]
  simp

theorem to_openai_sse_stream_last (j : Option String → String)
    (rs : List CompletionResponse) :
    (to_openai_sse_stream j rs).getLast? = some "data: [DONE]\n\n" := by
  simp [to_openai_sse_stream]

theorem to_openai_sse_stream_getElemQ (j : Option String → String)
    (rs : List CompletionResponse) (i : Nat) (hi : i < rs.length) :
    (to_openai_sse_stream j rs)[i]? =
      some ("data: " ++ j (rs[i].delta) ++ "\n\n") := by
  have h := to_openai_sse_stream_getElem j rs i hi
  rw [List.getElem?_eq_getElem (by simp [to_openai_sse_stream]; omega)]
  exact congrArg some h

theorem to_openai_sse_stream_take (j : Option String → String)
    (rs : List CompletionResponse) :
    (to_openai_sse_stream j rs).take rs.length =
      rs.map (fun r => "data: " ++ j r.delta ++ "\n\n") := by
  simp [to_openai_sse_stream]

/-- Claim C1: for every prompt sent to a completion endpoint
(POST/GET /completions via `run_llm`, and POST / via `main_run_llm`),
the response body emits exactly one `data: <json delta>\n\n` event per
delta produced by the LLM response generator, in the generator order
(the stream has generator-length plus one elements, element `i` is the
event for delta `i`), followed by exactly one terminating
`data: [DONE]\n\n` event as its last element. -/
theorem claim_C1
    (j : Option String → String)
    (stream_complete : String → List CompletionResponse)
    (llm_stream_complete : String → List CompletionResponse)
    (context_window : Nat) (prompt : String) :
    ((run_llm j stream_complete prompt).length
        = (stream_complete prompt).length + 1
      ∧ (∀ i, i < (stream_complete prompt).length →
          (run_llm j stream_complete prompt)[i]? =
            ((stream_complete prompt)[i]?).map
              (fun r => "data: " ++ j r.delta ++ "\n\n"))
      ∧ (run_llm j stream_complete prompt).getLast? = some "data: [DONE]\n\n")
    ∧ ((main_run_llm j llm_stream_complete context_window prompt).length
        = (llm_stream_complete (prompt.take context_window)).length + 1
      ∧ (∀ i, i < (llm_stream_complete (prompt.take context_window)).length →
          (main_run_llm j llm_stream_complete context_window prompt)[i]? =
            ((llm_stream_complete (prompt.take context_window))[i]?).map
              (fun r => "data: " ++ j r.delta ++ "\n\n"))
      ∧ (main_run_llm j llm_stream_complete context_window prompt).getLast?
          = some "data: [DONE]\n\n") := by
  have hmain : main_run_llm j llm_stream_complete context_window prompt =
      to_openai_sse_stream j (llm_stream_complete (prompt.take context_window)) := by
    rfl
  refine ⟨⟨to_openai_sse_stream_length j _, ?_, to_openai_sse_stream_last j _⟩,
    ?_, ?_, ?_⟩
  · intro i hi
    show (to_openai_sse_stream j (stream_complete prompt))[i]? = _
    rw [to_openai_sse_stream_getElemQ j _ i hi, List.getElem?_eq_getElem hi]
    rfl
  · rw [hmain]; exact to_openai_sse_stream_length j _
  · intro i hi
    rw [hmain]
    rw [to_openai_sse_stream_getElemQ j _ i hi, List.getElem?_eq_getElem hi]
    rfl
  · rw [hmain]; exact to_openai_sse_stream_last j _

/-- Witness for C1 at a concrete generator of two deltas. -/
theorem claim_C1_witness :
    (run_llm (fun o => o.getD "")
      (fun _ => [⟨some "Hel"⟩, ⟨some "lo"⟩]) "hi")[0]? = some "data: Hel\n\n" := by
  have h := (claim_C1 (fun o => o.getD "")
    (fun _ => [⟨some "Hel"⟩, ⟨some "lo"⟩])
    (fun _ => [⟨some "x"⟩]) 4 "hi").1.2.1 0 (by decide)
  simpa using h

/-! ## Chat service (src/private_gpt/server/chat/chat_service.py) -/

/-- A chat message as consumed by the chat service; llama-index
`ChatMessage.content` is optional. -/
structure ChatMessage where
  role : String
  content : Option String
  deriving Repr, DecidableEq

/-- Modelled from the spec: `ContextFiles`
(`private_gpt.open_ai.extensions.context_files`, not under src/) is the
collection of context files attached to a chat request; the Python
truthiness test `if context_files:` is false exactly for `None` and for
an empty collection. -/
abbrev ContextFiles := List String

/-- The LLM invocation a chat-service call performs: either a context
chat engine call whose retriever is restricted to the given node ids,
or a direct LLM call on the full message list. -/
inductive ChatDispatch where
  | withContext (node_ids : List String) (message : String)
      (chat_history : List ChatMessage) (streaming : Bool)
  | direct (messages : List ChatMessage) (streaming : Bool)
  deriving Repr, DecidableEq

/-- Embeds `ChatService._chat_with_contex`: the node ids come from
`get_context_nodes(context_files, docstore)` (that helper lives in
`private_gpt.node_store.node_utils`, not under src/, so it is a
parameter here), the retriever is restricted to them, and the engine is
invoked on `message` with `chat_history`, streaming or not. -/
def chat_with_contex {DocStore : Type}
    (get_context_nodes : ContextFiles → DocStore → List String)
    (docstore : DocStore) (message : String) (context_files : ContextFiles)
    (chat_history : List ChatMessage) (streaming : Bool) : ChatDispatch :=
  ChatDispatch.withContext (get_context_nodes context_files docstore)
    message chat_history streaming

/-- Embeds `ChatService.stream_chat`.  With truthy `context_files` the
last message content (or "" when it is `None`) is the query and all
earlier messages are the history; otherwise the messages go directly to
`llm.stream_chat`.  `none` models the Python `IndexError` that
`messages[-1]` raises on an empty message list. -/
def stream_chat {DocStore : Type}
    (get_context_nodes : ContextFiles → DocStore → List String)
    (docstore : DocStore) (messages : List ChatMessage)
    (context_files : Option ContextFiles) : Option ChatDispatch :=
  match context_files with
  | some cf =>
    if cf.isEmpty then some (ChatDispatch.direct messages true)
    else
      match messages.getLast? with
      | none => none
      | some last_message =>
        some (chat_with_contex get_context_nodes docstore
          (last_message.content.getD "") cf messages.dropLast true)
  | none => some (ChatDispatch.direct messages true)

/-- Embeds `ChatService.chat`, the non-streaming variant of
`stream_chat` (llm.chat on the direct path, `streaming=False` on the
context path). -/
def chat {DocStore : Type}
    (get_context_nodes : ContextFiles → DocStore → List String)
    (docstore : DocStore) (messages : List ChatMessage)
    (context_files : Option ContextFiles) : Option ChatDispatch :=
  match context_files with
  | some cf =>
    if cf.isEmpty then some (ChatDispatch.direct messages false)
    else
      match messages.getLast? with
      | none => none
      | some last_message =>
        some (chat_with_contex get_context_nodes docstore
          (last_message.content.getD "") cf messages.dropLast false)
  | none => some (ChatDispatch.direct messages false)

/-- Claim C2: with a non-None, non-empty `context_files` and non-empty
messages, both chat entry points dispatch a context-engine call whose
retrieval is restricted to `get_context_nodes(context_files, docstore)`,
whose query is the content of the last message (or "" when that content
is None), and whose history is all messages but the last; with
`context_files` None or empty, both dispatch the messages directly to
the LLM with no retrieval. -/
theorem claim_C2 {DocStore : Type}
    (get_context_nodes : ContextFiles → DocStore → List String)
    (docstore : DocStore) (messages : List ChatMessage)
    (context_files : Option ContextFiles) :
    (∀ cf, context_files = some cf → cf ≠ [] →
      ∀ h : messages ≠ [],
        stream_chat get_context_nodes docstore messages context_files =
          some (ChatDispatch.withContext (get_context_nodes cf docstore)
            ((messages.getLast h).content.getD "") messages.dropLast true)
        ∧ chat get_context_nodes docstore messages context_files =
          some (ChatDispatch.withContext (get_context_nodes cf docstore)
            ((messages.getLast h).content.getD "") messages.dropLast false))
    ∧ ((context_files = none ∨ context_files = some []) →
      stream_chat get_context_nodes docstore messages context_files =
        some (ChatDispatch.direct messages true)
      ∧ chat get_context_nodes docstore messages context_files =
        some (ChatDispatch.direct messages false)) := by
  constructor
  · rintro cf rfl hcf h
    have hempty : cf.isEmpty = false := by
      cases cf with
      | nil => exact absurd rfl hcf
      | cons a l => rfl
    have hlast : messages.getLast? = some (messages.getLast h) :=
      List.getLast?_eq_getLast messages h
    constructor
    · simp only [stream_chat, hempty, hlast]
      rfl
    · simp only [chat, hempty, hlast]
      rfl
  · rintro (rfl | rfl)
    · exact ⟨rfl, rfl⟩
    · exact ⟨rfl, rfl⟩

/-- Witness for C2 on a two-message conversation with one context file. -/
theorem claim_C2_witness :
    stream_chat (fun cf (_ : Unit) => cf.map (fun f => f ++ ":n1")) ()
      [⟨"user", some "hello"⟩, ⟨"user", some "what is up"⟩]
      (some ["doc.pdf"]) =
      some (ChatDispatch.withContext ["doc.pdf:n1"] "what is up"
        [⟨"user", some "hello"⟩] true) := by
  have h := ((claim_C2 (fun cf (_ : Unit) => cf.map (fun f => f ++ ":n1")) ()
    [⟨"user", some "hello"⟩, ⟨"user", some "what is up"⟩]
    (some ["doc.pdf"])).1 ["doc.pdf"] rfl (by decide) (by decide)).1
  simpa using h

/-! ## Chat histories
(src/private_gpt/users/api/v1/routers/chat_histories.py) -/

/-- A chat-history row: id, owning user, stored conversation. -/
structure ChatHistory where
  id : Nat
  user_id : Nat
  messages : List String
  deriving Repr, DecidableEq

/-- The chat-history table. -/
abbrev ChatStore := List ChatHistory

/-- Modelled from the spec: `crud.chat.get_by_id` (the chat-history
crud layer is not under src/) looks a chat history up by primary key. -/
def chat_get_by_id (db : ChatStore) (i : Nat) : Option ChatHistory :=
  db.find? (fun ch => ch.id == i)

/-- Modelled from the spec: `crud.chat.get` (not under src/), the
primary-key lookup the delete handler uses. -/
def chat_get (db : ChatStore) (i : Nat) : Option ChatHistory :=
  chat_get_by_id db i

/-- Modelled from the spec: `crud.chat.get_multi` (not under src/)
returns the chat histories of the given user with skip/limit
pagination. -/
def chat_get_multi (db : ChatStore) (skip limit : Nat)
    (user_id : Nat) : List ChatHistory :=
  ((db.filter (fun ch => ch.user_id == user_id)).drop skip).take limit

/-- Modelled from the spec: `crud.chat.update_messages` (not under
src/) replaces the stored conversation of the given chat history. -/
def chat_update_messages (db : ChatStore) (i : Nat)
    (new_messages : List String) : ChatStore :=
  db.map (fun ch => if ch.id == i then { ch with messages := new_messages }
    else ch)

/-- Modelled from the spec: `crud.chat.remove` (not under src/) deletes
the row with the given id. -/
def chat_remove (db : ChatStore) (i : Nat) : ChatStore :=
  db.filter (fun ch => ch.id != i)

/-- Embeds the `try / except Exception` wrapper shared by every
chat-history handler: any error raised by the body, the handler own
`HTTPException(404)` included (`HTTPException` subclasses `Exception`),
is replaced by a 500 Internal Server Error. -/
def catch_all_500 {α : Type} : Except HTTPError α → Except HTTPError α
  | Except.ok x => Except.ok x
  | Except.error _ => Except.error ⟨500, "Internal Server Error"⟩

/-- Embeds `list_chat_histories` (`GET /c`): the get_multi result for
the current user, behind the catch-all. -/
def list_chat_histories (db : ChatStore) (skip limit : Nat)
    (current_user_id : Nat) : Except HTTPError (List ChatHistory) :=
  catch_all_500 (Except.ok (chat_get_multi db skip limit current_user_id))

/-- The body of `read_chat_history` (`GET /c/id`) inside its try block:
404 when the id is missing or owned by another user. -/
def read_chat_history_body (db : ChatStore) (chat_history_id : Nat)
    (current_user_id : Nat) : Except HTTPError ChatHistory :=
  match chat_get_by_id db chat_history_id with
  | none => Except.error ⟨404, "Chat history not found"⟩
  | some ch =>
    if ch.user_id ≠ current_user_id then
      Except.error ⟨404, "Chat history not found"⟩
    else Except.ok ch

/-- Embeds `read_chat_history` (`GET /c/id`). -/
def read_chat_history (db : ChatStore) (chat_history_id : Nat)
    (current_user_id : Nat) : Except HTTPError ChatHistory :=
  catch_all_500 (read_chat_history_body db chat_history_id current_user_id)

/-- The body of `conversation` (`POST /c/conversation`) inside its try
block: 404 when the id is missing or foreign, otherwise the updated
history together with the updated store. -/
def conversation_body (db : ChatStore) (conversation_id : Nat)
    (new_messages : List String) (current_user_id : Nat) :
    Except HTTPError (ChatHistory × ChatStore) :=
  match chat_get_by_id db conversation_id with
  | none => Except.error ⟨404, "Chat history not found"⟩
  | some ch =>
    if ch.user_id ≠ current_user_id then
      Except.error ⟨404, "Chat history not found"⟩
    else Except.ok ({ ch with messages := new_messages },
      chat_update_messages db conversation_id new_messages)

/-- Embeds `conversation` (`POST /c/conversation`): result plus the
store after the request (unchanged on error). -/
def conversation (db : ChatStore) (conversation_id : Nat)
    (new_messages : List String) (current_user_id : Nat) :
    Except HTTPError ChatHistory × ChatStore :=
  match catch_all_500
      (conversation_body db conversation_id new_messages current_user_id) with
  | Except.ok (ch, db2) => (Except.ok ch, db2)
  | Except.error e => (Except.error e, db)

/-- The body of `delete_chat_history` (`POST /c/delete`) inside its try
block: 404 when the id is missing or foreign, otherwise the success
message together with the store without that row. -/
def delete_chat_history_body (db : ChatStore) (chat_history_id : Nat)
    (current_user_id : Nat) : Except HTTPError (String × ChatStore) :=
  match chat_get db chat_history_id with
  | none => Except.error ⟨404, "Chat history not found"⟩
  | some ch =>
    if ch.user_id ≠ current_user_id then
      Except.error ⟨404, "Chat history not found"⟩
    else Except.ok ("Chat history deleted successfully",
      chat_remove db chat_history_id)

/-- Embeds `delete_chat_history` (`POST /c/delete`): result plus the
store after the request (unchanged on error). -/
def delete_chat_history (db : ChatStore) (chat_history_id : Nat)
    (current_user_id : Nat) : Except HTTPError String × ChatStore :=
  match catch_all_500 (delete_chat_history_body db chat_history_id
      current_user_id) with
  | Except.ok (m, db2) => (Except.ok m, db2)
  | Except.error e => (Except.error e, db)

theorem catch_all_500_error {α : Type} (r : Except HTTPError α)
    (e : HTTPError) (h : catch_all_500 r = Except.error e) :
    e = ⟨500, "Internal Server Error"⟩ := by
  cases r with
  | ok x => simp [catch_all_500] at h
  | error e2 =>
    simp only [catch_all_500] at h
    exact (Except.error.inj h).symm

/-- Chat histories are looked up missing or foreign exactly when the
body reports the 404 error. -/
theorem bad_lookup_read (db : ChatStore) (i u : Nat)
    (h : chat_get_by_id db i = none ∨
      ∃ ch, chat_get_by_id db i = some ch ∧ ch.user_id ≠ u) :
    read_chat_history_body db i u =
      Except.error ⟨404, "Chat history not found"⟩ := by
  rcases h with hnone | ⟨ch, hch, hne⟩
  · simp [read_chat_history_body, hnone]
  · simp [read_chat_history_body, hch, hne]

theorem bad_lookup_conversation (db : ChatStore) (i : Nat)
    (new_messages : List String) (u : Nat)
    (h : chat_get_by_id db i = none ∨
      ∃ ch, chat_get_by_id db i = some ch ∧ ch.user_id ≠ u) :
    conversation_body db i new_messages u =
      Except.error ⟨404, "Chat history not found"⟩ := by
  rcases h with hnone | ⟨ch, hch, hne⟩
  · simp [conversation_body, hnone]
  · simp [conversation_body, hch, hne]

theorem bad_lookup_delete (db : ChatStore) (i u : Nat)
    (h : chat_get_by_id db i = none ∨
      ∃ ch, chat_get_by_id db i = some ch ∧ ch.user_id ≠ u) :
    delete_chat_history_body db i u =
      Except.error ⟨404, "Chat history not found"⟩ := by
  rcases h with hnone | ⟨ch, hch, hne⟩
  · simp [delete_chat_history_body, chat_get, hnone]
  · simp [delete_chat_history_body, chat_get, hch, hne]

/-- Claim C3: listing returns only chat histories owned by the
authenticated user, and every read, conversation update, or delete of a
chat history that is missing or owned by another user yields an HTTP
error, returns no chat-history content, and leaves the store
unchanged. -/
theorem claim_C3 (db : ChatStore) (skip limit u i : Nat)
    (new_messages : List String) :
    (∀ l, list_chat_histories db skip limit u = Except.ok l →
      ∀ ch ∈ l, ch.user_id = u)
    ∧ ((chat_get_by_id db i = none ∨
        ∃ ch, chat_get_by_id db i = some ch ∧ ch.user_id ≠ u) →
      (∃ e, read_chat_history db i u = Except.error e)
      ∧ (∃ e, (conversation db i new_messages u).1 = Except.error e)
      ∧ (conversation db i new_messages u).2 = db
      ∧ (∃ e, (delete_chat_history db i u).1 = Except.error e)
      ∧ (delete_chat_history db i u).2 = db) := by
  constructor
  · intro l hl ch hch
    have hl2 : l = chat_get_multi db skip limit u := by
      simpa [list_chat_histories, catch_all_500] using hl.symm
    subst hl2
    have hmem : ch ∈ db.filter (fun c => c.user_id == u) :=
      List.mem_of_mem_drop (List.mem_of_mem_take hch)
    exact beq_iff_eq.mp (List.mem_filter.mp hmem).2
  · intro hbad
    refine ⟨⟨⟨500, "Internal Server Error"⟩, ?_⟩,
      ⟨⟨500, "Internal Server Error"⟩, ?_⟩, ?_,
      ⟨⟨500, "Internal Server Error"⟩, ?_⟩, ?_⟩
    · simp [read_chat_history, bad_lookup_read db i u hbad, catch_all_500]
    · simp [conversation, bad_lookup_conversation db i new_messages u hbad,
        catch_all_500]
    · simp [conversation, bad_lookup_conversation db i new_messages u hbad,
        catch_all_500]
    · simp [delete_chat_history, bad_lookup_delete db i u hbad, catch_all_500]
    · simp [delete_chat_history, bad_lookup_delete db i u hbad, catch_all_500]

/-- Witness for C3: a chat history owned by user 7 is invisible to
user 5, and the delete request of user 5 leaves the store unchanged. -/
theorem claim_C3_witness :
    (∃ e, read_chat_history [⟨1, 7, ["m"]⟩] 1 5 = Except.error e)
    ∧ (delete_chat_history [⟨1, 7, ["m"]⟩] 1 5).2 = [⟨1, 7, ["m"]⟩] := by
  have h := (claim_C3 [⟨1, 7, ["m"]⟩] 0 100 5 1 []).2
    (Or.inr ⟨⟨1, 7, ["m"]⟩, by decide, by decide⟩)
  exact ⟨h.1, h.2.2.2.2⟩

/-- Claim C9: every error a chat-history read, update, or delete
request observes is the catch-all 500 Internal Server Error (the
handler own 404 included), so no such request ever observes a 404;
in particular a missing chat history yields 500 on all three
endpoints. -/
theorem claim_C9 (db : ChatStore) (i u : Nat)
    (new_messages : List String) :
    (∀ e, read_chat_history db i u = Except.error e →
      e = ⟨500, "Internal Server Error"⟩ ∧ e.status_code ≠ 404)
    ∧ (∀ e, (conversation db i new_messages u).1 = Except.error e →
      e = ⟨500, "Internal Server Error"⟩ ∧ e.status_code ≠ 404)
    ∧ (∀ e, (delete_chat_history db i u).1 = Except.error e →
      e = ⟨500, "Internal Server Error"⟩ ∧ e.status_code ≠ 404)
    ∧ (chat_get_by_id db i = none →
      read_chat_history db i u = Except.error ⟨500, "Internal Server Error"⟩
      ∧ (conversation db i new_messages u).1 =
          Except.error ⟨500, "Internal Server Error"⟩
      ∧ (delete_chat_history db i u).1 =
          Except.error ⟨500, "Internal Server Error"⟩) := by
  have hwrap : ∀ e : HTTPError, e = ⟨500, "Internal Server Error"⟩ →
      e = ⟨500, "Internal Server Error"⟩ ∧ e.status_code ≠ 404 := by
    rintro e rfl
    exact ⟨rfl, by decide⟩
  refine ⟨?_, ?_, ?_, ?_⟩
  · intro e he
    exact hwrap e (catch_all_500_error _ e he)
  · intro e he
    apply hwrap e
    rcases hb : catch_all_500 (conversation_body db i new_messages u) with e2 | v
    · have := catch_all_500_error _ e2 hb
      subst this
      simp [conversation, hb] at he
      exact he.symm
    · simp [conversation, hb] at he
  · intro e he
    apply hwrap e
    rcases hb : catch_all_500 (delete_chat_history_body db i u) with e2 | v
    · have := catch_all_500_error _ e2 hb
      subst this
      simp [delete_chat_history, hb] at he
      exact he.symm
    · simp [delete_chat_history, hb] at he
  · intro hnone
    have hread := bad_lookup_read db i u (Or.inl hnone)
    have hconv := bad_lookup_conversation db i new_messages u (Or.inl hnone)
    have hdel := bad_lookup_delete db i u (Or.inl hnone)
    exact ⟨by simp [read_chat_history, hread, catch_all_500],
      by simp [conversation, hconv, catch_all_500],
      by simp [delete_chat_history, hdel, catch_all_500]⟩

/-- Witness for C9: reading a chat history from an empty store yields
500, not 404. -/
theorem claim_C9_witness :
    read_chat_history [] 1 5 = Except.error ⟨500, "Internal Server Error"⟩ :=
  ((claim_C9 [] 1 5 []).2.2.2 (by decide)).1

/-! ## Auth dependency (src/private_gpt/users/api/deps.py) -/

/-- A user row as read by the auth dependency and the ingest router. -/
structure User where
  id : Nat
  fullname : String
  department_id : Nat
  deriving Repr, DecidableEq

/-- The decoded JWT payload: the optional `id` and `role` claims read
by `get_current_user` (`payload.get("id")`, `token_data.role`). -/
structure TokenPayload where
  id : Option Nat
  role : Option String
  deriving Repr, DecidableEq

/-- Modelled from the spec: `crud.user.get` (not under src/) is the
primary-key lookup of the users table. -/
def user_get (db : List User) (i : Nat) : Option User :=
  db.find? (fun u => u.id == i)

/-- Embeds `get_current_user` of src/private_gpt/users/api/deps.py.
The jose `jwt.decode` call and the pydantic `TokenPayload(**payload)`
validation are external libraries, modelled as the abstract inputs
`decoded` (`none` is a JWTError) and `validates`.  A missing id claim
raises the 401 `credentials_exception`, which escapes the
`except (jwt.JWTError, ValidationError)` clause because `HTTPException`
is neither; decode and validation failures give 403; an unknown user
gives 401; with required scopes, a falsy role claim or a role outside
the scopes gives 401. -/
def get_current_user (scopes : List String) (db : List User)
    (decoded : Option TokenPayload) (validates : TokenPayload → Bool) :
    Except HTTPError User :=
  match decoded with
  | none => Except.error ⟨403, "Could not validate credentials"⟩
  | some payload =>
    match payload.id with
    | none => Except.error ⟨401, "os"⟩
    | some token_id =>
      if validates payload = false then
        Except.error ⟨403, "Could not validate credentials"⟩
      else
        match user_get db token_id with
        | none => Except.error ⟨401, "os"⟩
        | some user =>
          if scopes.isEmpty then Except.ok user
          else
            match payload.role with
            | none => Except.error ⟨401, "Not enough permissions"⟩
            | some r =>
              if r = "" then Except.error ⟨401, "Not enough permissions"⟩
              else if scopes.contains r then Except.ok user
              else Except.error ⟨401, "Not enough permissions"⟩

/-- Claim C4: `get_current_user` returns a user exactly when the token
decodes, validates, carries a non-None id claim naming an existing
user, and, when scopes are required, a truthy role claim among them;
each failure is the HTTPException the code raises: 401 for missing id,
unknown user, or insufficient role, 403 for a token that fails to
decode or validate. -/
theorem claim_C4 (scopes : List String) (db : List User)
    (decoded : Option TokenPayload) (validates : TokenPayload → Bool) :
    (decoded = none →
      get_current_user scopes db decoded validates =
        Except.error ⟨403, "Could not validate credentials"⟩)
    ∧ (∀ p, decoded = some p → p.id = none →
      get_current_user scopes db decoded validates =
        Except.error ⟨401, "os"⟩)
    ∧ (∀ p tid, decoded = some p → p.id = some tid → validates p = false →
      get_current_user scopes db decoded validates =
        Except.error ⟨403, "Could not validate credentials"⟩)
    ∧ (∀ p tid, decoded = some p → p.id = some tid → validates p = true →
      user_get db tid = none →
      get_current_user scopes db decoded validates =
        Except.error ⟨401, "os"⟩)
    ∧ (∀ p tid user, decoded = some p → p.id = some tid →
      validates p = true → user_get db tid = some user → scopes ≠ [] →
      (p.role = none ∨ p.role = some "" ∨
        ∃ r, p.role = some r ∧ scopes.contains r = false) →
      get_current_user scopes db decoded validates =
        Except.error ⟨401, "Not enough permissions"⟩)
    ∧ (∀ user, get_current_user scopes db decoded validates =
        Except.ok user ↔
      ∃ p tid, decoded = some p ∧ p.id = some tid ∧ validates p = true ∧
        user_get db tid = some user ∧
        (scopes ≠ [] →
          ∃ r, p.role = some r ∧ r ≠ "" ∧ scopes.contains r = true)) := by
  refine ⟨?_, ?_, ?_, ?_, ?_, ?_⟩
  · rintro rfl
    rfl
  · rintro p rfl hid
    simp [get_current_user, hid]
  · rintro p tid rfl hid hv
    simp [get_current_user, hid, hv]
  · rintro p tid rfl hid hv hu
    simp [get_current_user, hid, hv, hu]
  · rintro p tid user rfl hid hv hu hs hrole
    have hse : scopes.isEmpty = false := by
      cases scopes with
      | nil => exact absurd rfl hs
      | cons a l => rfl
    rcases hrole with hr | hr | ⟨r, hr, hrc⟩
    · simp [get_current_user, hid, hv, hu, hse, hr]
    · simp [get_current_user, hid, hv, hu, hse, hr]
    · by_cases hre : r = ""
      · simp [get_current_user, hid, hv, hu, hse, hr, hre]
      · have hmem : r ∉ scopes := by simpa using hrc
        simp [get_current_user, hid, hv, hu, hse, hr, hre, hmem]
  · intro user
    constructor
    · intro h
      cases decoded with
      | none => simp [get_current_user] at h
      | some p =>
        cases hid : p.id with
        | none => simp [get_current_user, hid] at h
        | some tid =>
          cases hv : validates p with
          | false => simp [get_current_user, hid, hv] at h
          | true =>
            cases hu : user_get db tid with
            | none => simp [get_current_user, hid, hv, hu] at h
            | some u2 =>
              cases scopes with
              | nil =>
                simp [get_current_user, hid, hv, hu] at h
                exact ⟨p, tid, rfl, hid, hv, by rw [hu, h],
                  fun hne => absurd rfl hne⟩
              | cons a l =>
                cases hr : p.role with
                | none => simp [get_current_user, hid, hv, hu, hr] at h
                | some r =>
                  by_cases hre : r = ""
                  · simp [get_current_user, hid, hv, hu, hr, hre] at h
                  · by_cases hrc : r ∈ a :: l
                    · have hor : r = a ∨ r ∈ l := List.mem_cons.mp hrc
                      simp [get_current_user, hid, hv, hu, hr, hre, hor] at h
                      exact ⟨p, tid, rfl, hid, hv, by rw [hu, h],
                        fun _ => ⟨r, hr, hre, by simpa using hrc⟩⟩
                    · have hor : ¬(r = a ∨ r ∈ l) := by
                        simpa [List.mem_cons] using hrc
                      simp [get_current_user, hid, hv, hu, hr, hre, hor] at h
    · rintro ⟨p, tid, rfl, hid, hv, hu, hrole⟩
      cases scopes with
      | nil => simp [get_current_user, hid, hv, hu]
      | cons a l =>
        obtain ⟨r, hr, hre, hrc⟩ := hrole (by simp)
        have hor : r = a ∨ r ∈ l := List.mem_cons.mp (by simpa using hrc)
        simp [get_current_user, hid, hv, hu, hr, hre, hor]

/-- Witness for C4: a valid admin token for an existing user yields
that user. -/
theorem claim_C4_witness :
    get_current_user ["ADMIN"] [⟨1, "Alice", 2⟩]
      (some ⟨some 1, some "ADMIN"⟩) (fun _ => true) =
      Except.ok ⟨1, "Alice", 2⟩ :=
  ((claim_C4 ["ADMIN"] [⟨1, "Alice", 2⟩] (some ⟨some 1, some "ADMIN"⟩)
      (fun _ => true)).2.2.2.2.2 ⟨1, "Alice", 2⟩).mpr
    ⟨⟨some 1, some "ADMIN"⟩, 1, rfl, rfl, rfl, by decide,
      fun _ => ⟨"ADMIN", rfl, by decide, by decide⟩⟩

/-! ## Ingestion (src/private_gpt/server/ingest/ingest_router.py and
src/private_gpt/users/models/document.py) -/

/-- A row of the relational `document` table
(src/private_gpt/users/models/document.py); the `filename` column
carries a unique constraint. -/
structure Document where
  id : Nat
  filename : String
  uploaded_by : Nat
  department_id : Nat
  deriving Repr, DecidableEq

/-- An audit record as written by `log_audit`; only the fields the
claims mention (model, action, user id) are kept, the details dict is
dropped. -/
structure AuditRecord where
  model : String
  action : String
  user_id : Nat
  deriving Repr, DecidableEq

/-- An ingested llama-index document held in the storage context. -/
structure IngestedDoc where
  doc_id : String
  file_name : String
  deriving Repr, DecidableEq

/-- The pydantic `IngestResponse`: `object` and `model` are the
literals "list" and "private-gpt". -/
structure IngestResponse where
  object : String
  model : String
  data : List IngestedDoc
  deriving Repr, DecidableEq

/-- The state an ingest request touches: the relational document table,
the upload directory, the llama-index storage context, and the audit
log. -/
structure ServerState where
  documents : List Document
  upload_dir : List String
  storage : List IngestedDoc
  audit_log : List AuditRecord
  deriving Repr, DecidableEq

/-- Modelled from the spec: `crud.documents.get_by_filename` (not under
src/) finds the document row with the given filename; a `None`
filename matches no row since the column is non-nullable. -/
def documents_get_by_filename (docs : List Document)
    (file_name : Option String) : Option Document :=
  match file_name with
  | none => none
  | some fn => docs.find? (fun d => d.filename == fn)

/-- Modelled from the spec: `crud.documents.create` (not under src/)
inserts a row into the document table. -/
def documents_create (docs : List Document) (d : Document) :
    List Document :=
  docs ++ [d]

/-- Modelled from the spec: `crud.documents.remove` (not under src/)
deletes the row with the given primary key. -/
def documents_remove (docs : List Document) (i : Nat) : List Document :=
  docs.filter (fun d => d.id != i)

/-- Modelled from the spec: `IngestService.get_doc_ids_by_filename`
(not under src/) returns the ids of the storage-context documents
whose file name matches. -/
def get_doc_ids_by_filename (storage : List IngestedDoc)
    (filename : String) : List String :=
  (storage.filter (fun d => d.file_name == filename)).map
    (fun d => d.doc_id)

/-- Modelled from the spec: `IngestService.delete` (not under src/)
removes the document with the given id from the storage context. -/
def service_delete (storage : List IngestedDoc) (doc_id : String) :
    List IngestedDoc :=
  storage.filter (fun d => d.doc_id != doc_id)

/-- The `for doc_id in doc_ids: service.delete(doc_id)` loop of the
delete endpoint. -/
def service_delete_all (storage : List IngestedDoc)
    (ids : List String) : List IngestedDoc :=
  ids.foldl service_delete storage

/-- Embeds `delete_file` (`POST /v1/ingest/file/delete`).  An empty
doc-id list raises the 404 inside the try block, which the
`except Exception` arm re-raises as 500 with the state untouched;
otherwise every matching storage document is deleted, the upload-dir
copy is removed (`os.remove` failures are swallowed by the bare
except), and when a document row matches the filename a delete audit
record is written and the row removed. -/
def delete_file (s : ServerState) (current_user : User)
    (filename : String) : Except HTTPError String × ServerState :=
  let doc_ids := get_doc_ids_by_filename s.storage filename
  if doc_ids.isEmpty then
    (Except.error ⟨500, "Internal Server Error"⟩, s)
  else
    let storage2 := service_delete_all s.storage doc_ids
    let upload2 := s.upload_dir.filter (fun f => f != filename)
    match documents_get_by_filename s.documents (some filename) with
    | some document =>
      (Except.ok "SUCCESS",
        { documents := documents_remove s.documents document.id,
          upload_dir := upload2,
          storage := storage2,
          audit_log := s.audit_log ++
            [⟨"Document", "delete", current_user.id⟩] })
    | none =>
      (Except.ok "SUCCESS",
        { s with storage := storage2, upload_dir := upload2 })

/-- Embeds the current `ingest_file` (`POST /v1/ingest/file`).  The
llama-index pipeline `service.ingest_bin_data` is the parameter
`ingest_bin_data` (file name to generated documents, appended to the
storage context) and `next_id` is the primary key the insert assigns.
An existing row with the same filename gives 409 before anything is
created, written, or ingested; a missing file name gives 400; on
success the row is inserted, the upload written, the documents
ingested, and one create audit record appended. -/
def ingest_file_v1 (ingest_bin_data : String → List IngestedDoc)
    (next_id : Nat) (s : ServerState) (current_user : User)
    (filename : Option String) :
    Except HTTPError IngestResponse × ServerState :=
  match documents_get_by_filename s.documents filename with
  | some _ =>
    (Except.error ⟨409, "File already exists. Choose a different file."⟩, s)
  | none =>
    match filename with
    | none => (Except.error ⟨400, "No file name provided"⟩, s)
    | some fn =>
      let ingested := ingest_bin_data fn
      (Except.ok ⟨"list", "private-gpt", ingested⟩,
        { documents := documents_create s.documents
            ⟨next_id, fn, current_user.id, current_user.department_id⟩,
          upload_dir := if s.upload_dir.contains fn then s.upload_dir
            else s.upload_dir ++ [fn],
          storage := s.storage ++ ingested,
          audit_log := s.audit_log ++
            [⟨"Document", "create", current_user.id⟩] })

/-- Embeds `ingest_text` (`POST /v1/ingest/text`); the llama-index
pipeline `service.ingest_text` is the parameter `ingest_text_fn`. -/
def ingest_text (ingest_text_fn : String → String → List IngestedDoc)
    (s : ServerState) (file_name text : String) :
    Except HTTPError IngestResponse × ServerState :=
  if file_name.length = 0 then
    (Except.error ⟨400, "No file name provided"⟩, s)
  else
    let ingested := ingest_text_fn file_name text
    (Except.ok ⟨"list", "private-gpt", ingested⟩,
      { s with storage := s.storage ++ ingested })

/-- The value a deprecated ingest endpoint produces: an HTTP error (the
400 raised outside the try block for a missing file name), the bare
message dictionary its `except Exception` arm returns, a proper
`IngestResponse`, or an exception that escapes the handler unhandled
(carrying the Python exception type). -/
inductive DeprecatedIngestResult where
  | http_error (e : HTTPError)
  | message_dict (message : String)
  | response (r : IngestResponse)
  | unhandled_exception (exception_type : String)
  deriving Repr, DecidableEq

/-- Embeds the deprecated `ingest_file` (`POST /v1/ingest/file1`).
`io_error` abstracts the outcome of writing and ingesting the upload
inside the try block (`some msg` is an exception with text `msg`; any
partial file write on that path is not tracked).  On failure the
handler returns a plain message dictionary instead of raising; the
document table is never touched. -/
def ingest_file1 (ingest_bin_data : String → List IngestedDoc)
    (io_error : Option String) (s : ServerState)
    (filename : Option String) : DeprecatedIngestResult × ServerState :=
  match filename with
  | none =>
    (DeprecatedIngestResult.http_error ⟨400, "No file name provided"⟩, s)
  | some fn =>
    match io_error with
    | some msg =>
      (DeprecatedIngestResult.message_dict
        ("There was an error uploading the file(s)\n " ++ msg), s)
    | none =>
      let ingested := ingest_bin_data fn
      (DeprecatedIngestResult.response ⟨"list", "private-gpt", ingested⟩,
        { s with
          upload_dir := if s.upload_dir.contains fn then s.upload_dir
            else s.upload_dir ++ [fn],
          storage := s.storage ++ ingested })

/-- Embeds the deprecated `ingest` (`POST /v1/ingest`).  Its body is
`return ingest_file(request, file)`, but the module rebinds the global
`ingest_file` when the line-176 v1 handler is defined, and Python
resolves the name at call time, so the call invokes the v1 handler
with misbound arguments: the `UploadFile` lands in the `log_audit`
parameter while `db`, `file` and `current_user` keep their
`Depends(...)`, `File(...)` and `Security(...)` sentinel defaults.
Evaluating `file.filename` on the `File(...)` sentinel raises
AttributeError inside the try block; the `except Exception` arm then
evaluates `current_user.id` on the `Security(...)` sentinel, raising
AttributeError again (and its `log_audit(...)` call target is a
non-callable upload), so an unhandled exception escapes the handler:
no message dictionary, no response, and no state change on every
request, whatever the upload, the file name, or the io outcome.  The
pipeline and io parameters are kept for signature parity with
`ingest_file1` but are never reached. -/
def ingest (_ingest_bin_data : String → List IngestedDoc)
    (_io_error : Option String) (s : ServerState)
    (_filename : Option String) : DeprecatedIngestResult × ServerState :=
  (DeprecatedIngestResult.unhandled_exception "AttributeError", s)

/-- Claim C7: `POST /v1/ingest/text` fails with 400 on an empty file
name, ingesting nothing, and for every non-empty file name returns an
IngestResponse with object "list", model "private-gpt" and the
generated documents as data. -/
theorem claim_C7 (ingest_text_fn : String → String → List IngestedDoc)
    (s : ServerState) (file_name text : String) :
    (file_name = "" →
      ingest_text ingest_text_fn s file_name text =
        (Except.error ⟨400, "No file name provided"⟩, s))
    ∧ (file_name ≠ "" →
      ingest_text ingest_text_fn s file_name text =
        (Except.ok ⟨"list", "private-gpt", ingest_text_fn file_name text⟩,
          { s with storage := s.storage ++ ingest_text_fn file_name text })) := by
  constructor
  · rintro rfl
    rfl
  · intro h
    have hlen : file_name.length ≠ 0 := by
      intro h0
      apply h
      cases file_name with
      | mk data =>
        cases data with
        | nil => rfl
        | cons c cs => simp [String.length] at h0
    simp [ingest_text, hlen]

/-- Witness for C7: an empty file name is rejected with 400 and the
state is unchanged. -/
theorem claim_C7_witness :
    ingest_text (fun _ _ => [⟨"d1", "t.txt"⟩]) ⟨[], [], [], []⟩ "" "hello" =
      (Except.error ⟨400, "No file name provided"⟩, ⟨[], [], [], []⟩) :=
  (claim_C7 (fun _ _ => [⟨"d1", "t.txt"⟩]) ⟨[], [], [], []⟩ "" "hello").1 rfl

/-- Claim C5: every successful `POST /v1/ingest/file` request appends
exactly one audit record with model Document, action create, and the
authenticated user id; every successful `POST /v1/ingest/file/delete`
request that removes a document row appends one audit record with
model Document, action delete, and the user id. -/
theorem claim_C5 (ingest_bin_data : String → List IngestedDoc)
    (next_id : Nat) (s : ServerState) (current_user : User)
    (filename : Option String) (fname : String) :
    (∀ r s2, ingest_file_v1 ingest_bin_data next_id s current_user filename =
        (Except.ok r, s2) →
      s2.audit_log = s.audit_log ++ [⟨"Document", "create", current_user.id⟩])
    ∧ (∀ m s2, delete_file s current_user fname = (Except.ok m, s2) →
      (∃ d, documents_get_by_filename s.documents (some fname) = some d) →
      s2.audit_log = s.audit_log ++
        [⟨"Document", "delete", current_user.id⟩]) := by
  constructor
  · intro r s2 h
    have hfst := congrArg Prod.fst h
    have hsnd := congrArg Prod.snd h
    cases hg : documents_get_by_filename s.documents filename with
    | some d => simp [ingest_file_v1, hg] at hfst
    | none =>
      cases filename with
      | none => simp [ingest_file_v1, hg] at hfst
      | some fn =>
        rw [show s2 = (ingest_file_v1 ingest_bin_data next_id s current_user
          (some fn)).snd from hsnd.symm]
        simp [ingest_file_v1, hg]
  · intro m s2 h hdoc
    obtain ⟨d, hd⟩ := hdoc
    have hfst := congrArg Prod.fst h
    have hsnd := congrArg Prod.snd h
    by_cases hids : (get_doc_ids_by_filename s.storage fname).isEmpty
    · simp [delete_file, hids] at hfst
    · rw [show s2 = (delete_file s current_user fname).snd from hsnd.symm]
      simp [delete_file, hids, hd]

/-- Witness for C5: a successful file ingest by user 3 appends the
create audit record. -/
theorem claim_C5_witness :
    (⟨[⟨1, "a.pdf", 3, 2⟩], ["a.pdf"], [⟨"n1", "a.pdf"⟩],
        [⟨"Document", "create", 3⟩]⟩ : ServerState).audit_log =
      ([] : List AuditRecord) ++ [⟨"Document", "create", 3⟩] :=
  (claim_C5 (fun fn => [⟨"n1", fn⟩]) 1 ⟨[], [], [], []⟩ ⟨3, "Bob", 2⟩
      (some "a.pdf") "x").1
    ⟨"list", "private-gpt", [⟨"n1", "a.pdf"⟩]⟩
    ⟨[⟨1, "a.pdf", 3, 2⟩], ["a.pdf"], [⟨"n1", "a.pdf"⟩],
      [⟨"Document", "create", 3⟩]⟩ rfl

/-- Counterexample to C10 as stated: at a concrete upload whose write
fails, `POST /v1/ingest` does not return the message dictionary the
claim asserts for it; the call-time lookup of the rebound
`ingest_file` global misbinds the arguments of the v1 handler and an
AttributeError escapes unhandled. -/
theorem claim_C10_counterexample :
    (ingest (fun fn => [⟨"n1", fn⟩]) (some "disk full")
        ⟨[], [], [], []⟩ (some "a.pdf")).1 =
      DeprecatedIngestResult.unhandled_exception "AttributeError"
    ∧ (ingest (fun fn => [⟨"n1", fn⟩]) (some "disk full")
        ⟨[], [], [], []⟩ (some "a.pdf")).1 ≠
      DeprecatedIngestResult.message_dict
        ("There was an error uploading the file(s)\n " ++ "disk full") :=
  ⟨rfl, by decide⟩

/-- Claim C10 (amended): on any exception while writing or ingesting
the upload, the deprecated `POST /v1/ingest/file1` does not raise an
HTTP error but returns the bare message dictionary, which is not an
IngestResponse; on success it returns an IngestResponse with object
"list" and model "private-gpt".  `POST /v1/ingest`, however, never
returns the message dictionary: its call-time lookup of the rebound
`ingest_file` global invokes the v1 handler with misbound arguments,
so every request raises an unhandled exception and leaves the state
unchanged. -/
theorem claim_C10 (ingest_bin_data : String → List IngestedDoc)
    (io_error : Option String) (s : ServerState)
    (filename : Option String) (fn msg : String) :
    ((ingest_file1 ingest_bin_data (some msg) s (some fn)).1 =
        DeprecatedIngestResult.message_dict
          ("There was an error uploading the file(s)\n " ++ msg))
    ∧ (∀ e, (ingest_file1 ingest_bin_data (some msg) s (some fn)).1 ≠
        DeprecatedIngestResult.http_error e)
    ∧ (∀ r, (ingest_file1 ingest_bin_data (some msg) s (some fn)).1 ≠
        DeprecatedIngestResult.response r)
    ∧ ((ingest_file1 ingest_bin_data none s (some fn)).1 =
        DeprecatedIngestResult.response
          ⟨"list", "private-gpt", ingest_bin_data fn⟩)
    ∧ (∀ m, (ingest ingest_bin_data io_error s filename).1 ≠
        DeprecatedIngestResult.message_dict m)
    ∧ ((ingest ingest_bin_data io_error s filename).1 =
        DeprecatedIngestResult.unhandled_exception "AttributeError")
    ∧ (ingest ingest_bin_data io_error s filename).2 = s := by
  refine ⟨rfl, ?_, ?_, rfl, ?_, rfl, rfl⟩
  · intro e h
    simp [ingest_file1] at h
  · intro r h
    simp [ingest_file1] at h
  · intro m h
    simp [ingest] at h

/-- Witness for C10 (amended): a failed write on the file1 endpoint
yields the message dictionary. -/
theorem claim_C10_witness :
    (ingest_file1 (fun fn => [⟨"n1", fn⟩]) (some "disk full")
        ⟨[], [], [], []⟩ (some "a.pdf")).1 =
      DeprecatedIngestResult.message_dict
        ("There was an error uploading the file(s)\n " ++ "disk full") :=
  (claim_C10 (fun fn => [⟨"n1", fn⟩]) none ⟨[], [], [], []⟩ none
    "a.pdf" "disk full").1

/-- Deleting a list of storage ids one by one keeps exactly the
documents whose id is outside the list. -/
theorem service_delete_all_eq (ids : List String)
    (storage : List IngestedDoc) :
    service_delete_all storage ids =
      storage.filter (fun d => !ids.contains d.doc_id) := by
  induction ids generalizing storage with
  | nil => simp [service_delete_all]
  | cons i ids ih =>
    have hstep : service_delete_all storage (i :: ids) =
        service_delete_all (service_delete storage i) ids := rfl
    rw [hstep, ih, service_delete, List.filter_filter]
    congr 1
    funext d
    by_cases h1 : d.doc_id = i
    · simp [h1]
    · simp [h1, bne]

/-- Every storage document with the given file name has its id among
the ids returned for that file name. -/
theorem mem_get_doc_ids (storage : List IngestedDoc) (fname : String)
    (d : IngestedDoc) (hd : d ∈ storage) (hf : d.file_name = fname) :
    d.doc_id ∈ get_doc_ids_by_filename storage fname := by
  apply List.mem_map_of_mem
  exact List.mem_filter.mpr ⟨hd, by simp [hf]⟩

/-- Claim C6: `POST /v1/ingest/file/delete` with a filename matching no
ingested document id raises an HTTP error and deletes nothing; with
matching ids it deletes every document id associated with the filename
from the storage context (the remaining storage is exactly the
documents with ids outside that list, so none with that file name
remains) and removes the matching relational row before returning a
success message. -/
theorem claim_C6 (s : ServerState) (current_user : User)
    (fname : String) :
    (get_doc_ids_by_filename s.storage fname = [] →
      (∃ e, (delete_file s current_user fname).1 = Except.error e)
      ∧ (delete_file s current_user fname).2 = s)
    ∧ (get_doc_ids_by_filename s.storage fname ≠ [] →
      (∃ m, (delete_file s current_user fname).1 = Except.ok m)
      ∧ (delete_file s current_user fname).2.storage =
          s.storage.filter (fun d =>
            !(get_doc_ids_by_filename s.storage fname).contains d.doc_id)
      ∧ (∀ d2 ∈ (delete_file s current_user fname).2.storage,
          d2.file_name ≠ fname)
      ∧ (∀ d, documents_get_by_filename s.documents (some fname) = some d →
          (delete_file s current_user fname).2.documents =
            documents_remove s.documents d.id)) := by
  constructor
  · intro hids
    refine ⟨⟨⟨500, "Internal Server Error"⟩, ?_⟩, ?_⟩
    · simp [delete_file, hids]
    · simp [delete_file, hids]
  · intro hne
    have hempty : (get_doc_ids_by_filename s.storage fname).isEmpty = false := by
      rcases hl : get_doc_ids_by_filename s.storage fname with _ | ⟨a, l⟩
      · exact absurd hl hne
      · rfl
    have hstorage : (delete_file s current_user fname).2.storage =
        s.storage.filter (fun d =>
          !(get_doc_ids_by_filename s.storage fname).contains d.doc_id) := by
      cases hd : documents_get_by_filename s.documents (some fname) with
      | some d => simp [delete_file, hempty, hd, service_delete_all_eq]
      | none => simp [delete_file, hempty, hd, service_delete_all_eq]
    refine ⟨?_, hstorage, ?_, ?_⟩
    · cases hd : documents_get_by_filename s.documents (some fname) with
      | some d => exact ⟨"SUCCESS", by simp [delete_file, hempty, hd]⟩
      | none => exact ⟨"SUCCESS", by simp [delete_file, hempty, hd]⟩
    · intro d2 hd2 hf
      rw [hstorage] at hd2
      have hmem := List.mem_filter.mp hd2
      have hin : d2.doc_id ∈ get_doc_ids_by_filename s.storage fname :=
        mem_get_doc_ids s.storage fname d2 hmem.1 hf
      have hnot := hmem.2
      simp at hnot
      exact hnot hin
    · intro d hd
      simp [delete_file, hempty, hd]

/-- Witness for C6: deleting a filename with no matching ingested
document leaves the state unchanged. -/
theorem claim_C6_witness :
    (delete_file ⟨[⟨1, "b.pdf", 3, 2⟩], [], [], []⟩ ⟨3, "Bob", 2⟩
        "a.pdf").2 = ⟨[⟨1, "b.pdf", 3, 2⟩], [], [], []⟩ :=
  ((claim_C6 ⟨[⟨1, "b.pdf", 3, 2⟩], [], [], []⟩ ⟨3, "Bob", 2⟩ "a.pdf").1
    (by decide)).2

/-- One ingest-router operation, as applied to the server state. -/
inductive IngestOp where
  | ingestFile (next_id : Nat) (current_user : User) (filename : Option String)
  | ingestText (file_name text : String)
  | ingestDeprecated (io_error : Option String) (filename : Option String)
  | deleteFile (current_user : User) (filename : String)

/-- Applies one ingest operation, keeping the resulting state. -/
def apply_op (ingest_bin_data : String → List IngestedDoc)
    (ingest_text_fn : String → String → List IngestedDoc)
    (s : ServerState) : IngestOp → ServerState
  | IngestOp.ingestFile nid u fn => (ingest_file_v1 ingest_bin_data nid s u fn).2
  | IngestOp.ingestText fn text => (ingest_text ingest_text_fn s fn text).2
  | IngestOp.ingestDeprecated io fn => (ingest_file1 ingest_bin_data io s fn).2
  | IngestOp.deleteFile u fn => (delete_file s u fn).2

/-- Applies a sequence of ingest operations. -/
def apply_ops (ingest_bin_data : String → List IngestedDoc)
    (ingest_text_fn : String → String → List IngestedDoc)
    (s : ServerState) (ops : List IngestOp) : ServerState :=
  ops.foldl (apply_op ingest_bin_data ingest_text_fn) s

/-- No two rows of the document table share a filename. -/
def filenames_unique (docs : List Document) : Prop :=
  docs.Pairwise (fun a b => a.filename ≠ b.filename)

theorem ingest_text_documents (ingest_text_fn : String → String → List IngestedDoc)
    (s : ServerState) (fn text : String) :
    (ingest_text ingest_text_fn s fn text).2.documents = s.documents := by
  by_cases h : fn.length = 0 <;> simp [ingest_text, h]

theorem ingest_file1_documents (ingest_bin_data : String → List IngestedDoc)
    (io_error : Option String) (s : ServerState) (filename : Option String) :
    (ingest_file1 ingest_bin_data io_error s filename).2.documents =
      s.documents := by
  cases filename <;> cases io_error <;> simp [ingest_file1]

theorem delete_file_preserves_unique (s : ServerState) (u : User)
    (fn : String) (h : filenames_unique s.documents) :
    filenames_unique (delete_file s u fn).2.documents := by
  by_cases hids : (get_doc_ids_by_filename s.storage fn).isEmpty
  · simpa [delete_file, hids] using h
  · cases hd : documents_get_by_filename s.documents (some fn) with
    | some d =>
      simp only [delete_file, hids, hd]
      exact h.sublist (List.filter_sublist _)
    | none => simpa [delete_file, hids, hd] using h

theorem ingest_file_v1_preserves_unique
    (ingest_bin_data : String → List IngestedDoc) (nid : Nat)
    (s : ServerState) (u : User) (filename : Option String)
    (h : filenames_unique s.documents) :
    filenames_unique (ingest_file_v1 ingest_bin_data nid s u filename).2.documents := by
  cases hg : documents_get_by_filename s.documents filename with
  | some d => simpa [ingest_file_v1, hg] using h
  | none =>
    cases filename with
    | none => simpa [ingest_file_v1, hg] using h
    | some fn =>
      simp only [ingest_file_v1, hg, documents_create]
      apply List.pairwise_append.mpr
      refine ⟨h, List.pairwise_singleton _ _, ?_⟩
      intro a ha b hb
      have hb2 : b = ⟨nid, fn, u.id, u.department_id⟩ := by
        simpa using hb
      subst hb2
      have hfind := List.find?_eq_none.mp hg a ha
      simpa using hfind

theorem apply_op_preserves_unique
    (ingest_bin_data : String → List IngestedDoc)
    (ingest_text_fn : String → String → List IngestedDoc)
    (s : ServerState) (op : IngestOp) (h : filenames_unique s.documents) :
    filenames_unique (apply_op ingest_bin_data ingest_text_fn s op).documents := by
  cases op with
  | ingestFile nid u fn =>
    exact ingest_file_v1_preserves_unique ingest_bin_data nid s u fn h
  | ingestText fn text =>
    rw [apply_op, ingest_text_documents]
    exact h
  | ingestDeprecated io fn =>
    rw [apply_op, ingest_file1_documents]
    exact h
  | deleteFile u fn => exact delete_file_preserves_unique s u fn h

/-- Claim C8: `POST /v1/ingest/file` answers 409 Conflict when a
document row with the filename already exists, leaving the whole state
(rows, upload dir, storage, audit log) untouched, and every sequence
of ingest operations preserves the invariant that no two document rows
share a filename (the unique column constraint of the model). -/
theorem claim_C8 (ingest_bin_data : String → List IngestedDoc)
    (ingest_text_fn : String → String → List IngestedDoc)
    (next_id : Nat) (s : ServerState) (current_user : User)
    (filename : Option String) :
    (∀ d, documents_get_by_filename s.documents filename = some d →
      ingest_file_v1 ingest_bin_data next_id s current_user filename =
        (Except.error ⟨409, "File already exists. Choose a different file."⟩, s))
    ∧ (filenames_unique s.documents →
      ∀ ops, filenames_unique
        (apply_ops ingest_bin_data ingest_text_fn s ops).documents) := by
  constructor
  · intro d hd
    simp [ingest_file_v1, hd]
  · intro h ops
    induction ops generalizing s with
    | nil => exact h
    | cons op ops ih =>
      exact ih _ (apply_op_preserves_unique ingest_bin_data ingest_text_fn
        s op h)

/-- Witness for C8: re-ingesting an existing filename yields 409 and
leaves the state unchanged. -/
theorem claim_C8_witness :
    ingest_file_v1 (fun fn => [⟨"n2", fn⟩]) 2
        ⟨[⟨1, "a.pdf", 3, 2⟩], ["a.pdf"], [⟨"n1", "a.pdf"⟩], []⟩
        ⟨3, "Bob", 2⟩ (some "a.pdf") =
      (Except.error ⟨409, "File already exists. Choose a different file."⟩,
        ⟨[⟨1, "a.pdf", 3, 2⟩], ["a.pdf"], [⟨"n1", "a.pdf"⟩], []⟩) :=
  (claim_C8 (fun fn => [⟨"n2", fn⟩]) (fun fn _ => [⟨"t", fn⟩]) 2
      ⟨[⟨1, "a.pdf", 3, 2⟩], ["a.pdf"], [⟨"n1", "a.pdf"⟩], []⟩
      ⟨3, "Bob", 2⟩ (some "a.pdf")).1
    ⟨1, "a.pdf", 3, 2⟩ (by decide)

end PrivateGpt
